import Mathlib

/-!
Shallow embedding of the performance evaluation and aggregation core of
the `salasituacionaljose` repository, together with proofs of the claims
made by its specification.

Timestamps are modelled as integers (milliseconds since the epoch, the
value of JavaScript's `Date.getTime()`); all fractional arithmetic is
carried out in `ℚ`, matching the exact values the specification ascribes
to the floating-point computations of the source.  `Math.round(x)` is
modelled by Mathlib's `round : ℚ → ℤ` (both are `⌊x + 1/2⌋`).
-/

namespace Sala

/-- `round2 q` models `Math.round(q * 100) / 100`, the two-decimal
half-up rounding used throughout the services. -/
def round2 (q : ℚ) : ℚ := (round (q * 100) : ℚ) / 100

/-! ## Data model (from `src/models`) -/

/-- Municipality record (`models/Municipio.ts`): `id`, `nombre`. -/
structure Municipio where
  id : ℕ
  nombre : String
deriving Repr, DecidableEq

/-- Organizational division record (`models/Division.ts`): `id`, `nombre`. -/
structure Division where
  id : ℕ
  nombre : String
deriving Repr, DecidableEq

/-- Task status (`models/Tarea.ts`): `'en_proceso' | 'finalizada'`. -/
inductive EstadoTarea where
  | en_proceso
  | finalizada
deriving Repr, DecidableEq

/-- Task record (`models/Tarea.ts`). -/
structure Tarea where
  id : ℕ
  nombre : String
  divisionId : ℕ
  fechaInicio : ℤ
  fechaCulminacion : ℤ
  estado : EstadoTarea
deriving Repr, DecidableEq

/-- Delivery record (`models/Entrega.ts`, with the `calificacion`
column read by the advanced evaluation service). -/
structure Entrega where
  id : ℕ
  tareaId : ℕ
  municipioId : ℕ
  fechaHoraEntrega : ℤ
  calificacion : Option ℤ
deriving Repr, DecidableEq

/-- The reference store the services query (the Sequelize-backed tables). -/
structure Store where
  municipios : List Municipio
  divisiones : List Division
  tareas : List Tarea
  entregas : List Entrega
deriving Repr

/-! ## Advanced evaluation service (`advancedEvaluationService`) -/

/-- `calcularPuntualidad(fechaEntrega, fechaInicio, fechaLimite)`:
punctuality score of a single delivery against the task window. -/
def calcularPuntualidad (fechaEntrega fechaInicio fechaLimite : ℤ) : ℚ :=
  let tiempoTotal : ℤ := fechaLimite - fechaInicio
  let tiempoTranscurrido : ℤ := fechaEntrega - fechaInicio
  if tiempoTranscurrido ≤ 0 then 100
  else if tiempoTranscurrido ≥ tiempoTotal then 0
  else round2 (100 - ((tiempoTranscurrido : ℚ) / (tiempoTotal : ℚ)) * 100)

/-! ## Color generator (`utils/colorGenerator.ts`) -/

/-- The fixed 15-entry palette `CHART_COLORS`. -/
def CHART_COLORS : List String :=
  ["#3B82F6", "#10B981", "#F59E0B", "#EF4444", "#8B5CF6",
   "#EC4899", "#14B8A6", "#F97316", "#6366F1", "#84CC16",
   "#06B6D4", "#F43F5E", "#A855F7", "#22C55E", "#FBBF24"]

/-- `generateColor(index)` = `CHART_COLORS[index % CHART_COLORS.length]`. -/
def generateColor (index : ℕ) : String :=
  CHART_COLORS.getD (index % CHART_COLORS.length) ""

/-! ## Query-ordering helpers

The services fetch municipalities and divisions with `order: [['nombre',
'ASC']]` and tasks with `order: [['fechaInicio', 'DESC']]`; insertion
sorts model those `ORDER BY` clauses. -/

def insertarPorNombre (clave : α → String) (a : α) : List α → List α
  | [] => [a]
  | b :: rest =>
    if clave a ≤ clave b then a :: b :: rest else b :: insertarPorNombre clave a rest

/-- `findAll({ order: [['nombre', 'ASC']] })`. -/
def ordenarPorNombre (clave : α → String) : List α → List α
  | [] => []
  | a :: rest => insertarPorNombre clave a (ordenarPorNombre clave rest)

def insertarPorFechaDesc (a : Tarea) : List Tarea → List Tarea
  | [] => [a]
  | b :: rest =>
    if b.fechaInicio ≤ a.fechaInicio then a :: b :: rest else b :: insertarPorFechaDesc a rest

/-- `order: [['fechaInicio', 'DESC']]`. -/
def ordenarPorFechaInicioDesc : List Tarea → List Tarea
  | [] => []
  | a :: rest => insertarPorFechaDesc a (ordenarPorFechaInicioDesc rest)

/-! ## Coverage calculator (`services/performanceService.ts`,
`getMunicipalityPerformanceData`) -/

structure MunicipalityPerformance where
  municipioId : ℕ
  municipioNombre : String
  totalTareas : ℕ
  tareasCompletadas : ℕ
  porcentajeCompletado : ℚ
  actividadesCompletadas : List String
  color : String
deriving Repr, DecidableEq

/-- `Entrega.findAll({ where: { municipioId } })`. -/
def entregasDeMunicipio (store : Store) (municipioId : ℕ) : List Entrega :=
  store.entregas.filter (fun e => e.municipioId == municipioId)

/-- The `include: [{ model: Tarea, as: 'tarea' }]` join on a delivery. -/
def tareaDeEntrega (store : Store) (e : Entrega) : Option Tarea :=
  store.tareas.find? (fun t => t.id == e.tareaId)

/-- The `entregas.forEach` loop deduplicating by task id: carries the
`uniqueTaskIds` set and the `actividadesCompletadas` names, in order. -/
def acumularActividades (store : Store) :
    List Entrega → List ℕ × List String → List ℕ × List String
  | [], acc => acc
  | e :: rest, (ids, nombres) =>
    match tareaDeEntrega store e with
    | some t =>
      if t.id ∈ ids then acumularActividades store rest (ids, nombres)
      else acumularActividades store rest (ids ++ [t.id], nombres ++ [t.nombre])
    | none => acumularActividades store rest (ids, nombres)

/-- One entry of the coverage report, built for the municipality at
0-based position `i` of the name-ordered listing. -/
def municipioPerformance (store : Store) (i : ℕ) (m : Municipio) : MunicipalityPerformance :=
  let totalTareas := store.tareas.length
  let entregas := entregasDeMunicipio store m.id
  let resultado := acumularActividades store entregas ([], [])
  let tareasCompletadas := resultado.1.length
  let porcentajeCompletado : ℚ :=
    if 0 < totalTareas then
      (round (((tareasCompletadas : ℚ) / (totalTareas : ℚ)) * 10000) : ℚ) / 100
    else 0
  { municipioId := m.id
    municipioNombre := m.nombre
    totalTareas, tareasCompletadas, porcentajeCompletado
    actividadesCompletadas := resultado.2
    color := generateColor i }

/-- `getMunicipalityPerformanceData()`. -/
def getMunicipalityPerformanceData (store : Store) : List MunicipalityPerformance :=
  ((ordenarPorNombre Municipio.nombre store.municipios).enum).map
    (fun p => municipioPerformance store p.1 p.2)

/-! ## Calendar model

`getMonthlyPerformance` builds its window with `new Date(year, month-1, 1)`
and `new Date(year, month, 0, 23, 59, 59)`.  We model the proleptic
Gregorian calendar of the JavaScript `Date`, mapping a calendar datetime
to epoch milliseconds (days via the standard civil-from-date algorithm;
`/` and `%` on `ℤ` round toward negative infinity for the positive
divisors used here, as required). -/

def esBisiesto (y : ℤ) : Bool := (y % 4 == 0 && y % 100 != 0) || y % 400 == 0

def diasEnMes (y : ℤ) (m : ℕ) : ℕ :=
  if m == 2 then (if esBisiesto y then 29 else 28)
  else if m == 4 || m == 6 || m == 9 || m == 11 then 30
  else 31

/-- Days from the epoch 1970-01-01 to the civil date `y-m-d`. -/
def diasDesdeEpoca (y : ℤ) (m d : ℕ) : ℤ :=
  let y' : ℤ := if m ≤ 2 then y - 1 else y
  let era : ℤ := y' / 400
  let yoe : ℤ := y' - era * 400
  let mp : ℤ := ((m : ℤ) + 9) % 12
  let doy : ℤ := (153 * mp + 2) / 5 + (d : ℤ) - 1
  let doe : ℤ := yoe * 365 + yoe / 4 - yoe / 100 + doy
  era * 146097 + doe - 719468

/-- Epoch milliseconds of the datetime `y-m-d hh:mi:ss.ms`. -/
def msDe (y : ℤ) (m d hh mi ss ms : ℕ) : ℤ :=
  diasDesdeEpoca y m d * 86400000 + (hh : ℤ) * 3600000 + (mi : ℤ) * 60000
    + (ss : ℤ) * 1000 + (ms : ℤ)

/-- `new Date(year, month - 1, 1)`: first day of the month, 00:00:00.000. -/
def inicioMes (year : ℤ) (month : ℕ) : ℤ := msDe year month 1 0 0 0 0

/-- `new Date(year, month, 0, 23, 59, 59)`: last day of the month,
23:59:59 and (per JavaScript defaults) 0 milliseconds. -/
def finMes (year : ℤ) (month : ℕ) : ℤ :=
  msDe year month (diasEnMes year month) 23 59 59 0

/-- The three-way-OR window-overlap condition (the `[Op.or]` block used
both by `getMonthlyPerformance` and by the advanced evaluation filter). -/
def enVentana (lo hi : ℤ) (t : Tarea) : Bool :=
  (decide (lo ≤ t.fechaInicio) && decide (t.fechaInicio ≤ hi)) ||
  (decide (lo ≤ t.fechaCulminacion) && decide (t.fechaCulminacion ≤ hi)) ||
  (decide (t.fechaInicio ≤ lo) && decide (hi ≤ t.fechaCulminacion))

/-! ## Monthly breakdown (`services/performanceService.ts`,
`getMonthlyPerformance`) -/

/-- The month's task universe: `Tarea.findAll` under the three-way OR. -/
def tareasDelMes (store : Store) (year : ℤ) (month : ℕ) : List Tarea :=
  store.tareas.filter (enVentana (inicioMes year month) (finMes year month))

structure DivisionPerformanceData where
  divisionId : ℕ
  divisionNombre : String
  tareasAsignadas : ℕ
  tareasCompletadas : ℕ
  porcentaje : ℚ
deriving Repr, DecidableEq

structure MunicipalityMonthlyPerformance where
  municipioId : ℕ
  municipioNombre : String
  divisionData : List DivisionPerformanceData
  totalTareasAsignadas : ℕ
  totalTareasCompletadas : ℕ
  porcentajeTotal : ℚ
deriving Repr, DecidableEq

structure MonthlyPerformanceData where
  mes : String
  municipios : List MunicipalityMonthlyPerformance
deriving Repr, DecidableEq

/-- The `include: [{ model: Entrega, as: 'entregas' }]` join on a task. -/
def entregasDeTarea (store : Store) (t : Tarea) : List Entrega :=
  store.entregas.filter (fun e => e.tareaId == t.id)

/-- `entregas.some(e => e.municipioId === municipio.id)`. -/
def tareaCompletadaPor (store : Store) (municipioId : ℕ) (t : Tarea) : Bool :=
  (entregasDeTarea store t).any (fun e => e.municipioId == municipioId)

/-- The `for (const division of divisiones)` loop: accumulates the
per-division rows (only divisions with in-month tasks) and the running
unit totals. -/
def datosDivisiones (store : Store) (tareasMes : List Tarea) (municipioId : ℕ) :
    List Division → List DivisionPerformanceData × ℕ × ℕ →
      List DivisionPerformanceData × ℕ × ℕ
  | [], acc => acc
  | division :: rest, (data, totalA, totalC) =>
    let tareasDivision := tareasMes.filter (fun t => t.divisionId == division.id)
    let tareasAsignadas := tareasDivision.length
    let tareasCompletadas := tareasDivision.countP (tareaCompletadaPor store municipioId)
    if 0 < tareasAsignadas then
      let porcentaje : ℚ := ((tareasCompletadas : ℚ) / (tareasAsignadas : ℚ)) * 100
      datosDivisiones store tareasMes municipioId rest
        (data ++ [{ divisionId := division.id
                    divisionNombre := division.nombre
                    tareasAsignadas, tareasCompletadas
                    porcentaje := (round (porcentaje * 100) : ℚ) / 100 }],
         totalA + tareasAsignadas, totalC + tareasCompletadas)
    else
      datosDivisiones store tareasMes municipioId rest (data, totalA, totalC)

/-- One `municipiosData` entry of the monthly report. -/
def municipioMensual (store : Store) (tareasMes : List Tarea)
    (divisiones : List Division) (m : Municipio) : MunicipalityMonthlyPerformance :=
  let resultado := datosDivisiones store tareasMes m.id divisiones ([], 0, 0)
  let divisionData := resultado.1
  let totalTareasAsignadas := resultado.2.1
  let totalTareasCompletadas := resultado.2.2
  let porcentajeTotal : ℚ :=
    if 0 < totalTareasAsignadas then
      ((totalTareasCompletadas : ℚ) / (totalTareasAsignadas : ℚ)) * 100
    else 0
  { municipioId := m.id
    municipioNombre := m.nombre
    divisionData, totalTareasAsignadas, totalTareasCompletadas
    porcentajeTotal := (round (porcentajeTotal * 100) : ℚ) / 100 }

/-- `` `${year}-${month.toString().padStart(2, '0')}` ``. -/
def mesString (year : ℤ) (month : ℕ) : String :=
  toString year ++ "-" ++ (if month < 10 then "0" ++ toString month else toString month)

/-- `getMonthlyPerformance(year, month)`. -/
def getMonthlyPerformance (store : Store) (year : ℤ) (month : ℕ) : MonthlyPerformanceData :=
  let tareasMes := tareasDelMes store year month
  let municipios := ordenarPorNombre Municipio.nombre store.municipios
  let divisiones := ordenarPorNombre Division.nombre store.divisiones
  { mes := mesString year month
    municipios := municipios.map (municipioMensual store tareasMes divisiones) }

/-! ## Task lifecycle updater (`utils/actualizarEstadoTareas.ts`)

`Tarea.update({ estado: 'finalizada' }, { where: { estado: 'en_proceso',
fechaCulminacion: { [Op.lte]: ahora } } })`: a conditional bulk update
returning the number of affected rows (the count the function logs). -/

/-- The `WHERE` clause of the bulk update. -/
def debeFinalizar (ahora : ℤ) (t : Tarea) : Bool :=
  t.estado == EstadoTarea.en_proceso && decide (t.fechaCulminacion ≤ ahora)

/-- `actualizarEstadoTareas` at time `ahora`: the updated task table and
the affected-row count. -/
def actualizarEstadoTareas (tareas : List Tarea) (ahora : ℤ) : List Tarea × ℕ :=
  (tareas.map (fun t =>
      if debeFinalizar ahora t then { t with estado := EstadoTarea.finalizada } else t),
   tareas.countP (debeFinalizar ahora))

/-! ## Advanced evaluation engine (`advancedEvaluationService`,
`getMunicipalityComprehensiveEvaluation`) -/

structure TaskEvaluation where
  tareaId : ℕ
  tareaNombre : String
  entregado : Bool
  cantidadEntregas : ℕ
  puntualidad : ℚ
  calidad : ℚ
  primeraEntrega : Option ℤ
  fechaLimite : ℤ
deriving Repr, DecidableEq

structure ComprehensiveEvaluation where
  municipioId : ℕ
  municipioNombre : String
  totalTareas : ℕ
  tareasCompletadas : ℕ
  porcentajeCobertura : ℚ
  entregasPuntuales : ℕ
  entregasTardias : ℕ
  porcentajePuntualidad : ℚ
  promedioPuntualidad : ℚ
  totalEntregas : ℕ
  promedioEntregasPorTarea : ℚ
  entregasCalificadas : ℕ
  promedioCalidad : ℚ
  puntuacionFinal : ℚ
  detallesTareas : List TaskEvaluation
deriving Repr, DecidableEq

/-- The optional `filtros` argument. -/
structure Filtros where
  fechaInicio : Option ℤ := none
  fechaFin : Option ℤ := none
  divisionId : Option ℕ := none
deriving Repr, DecidableEq

/-- The `whereClause` built from the filters: division restriction plus,
when both dates are present, the three-way-OR range overlap. -/
def pasaFiltros (filtros : Filtros) (t : Tarea) : Bool :=
  (match filtros.divisionId with
   | some d => t.divisionId == d
   | none => true) &&
  (match filtros.fechaInicio, filtros.fechaFin with
   | some lo, some hi => enVentana lo hi t
   | _, _ => true)

/-- `Tarea.findAll({ where: whereClause, order: [['fechaInicio', 'DESC']] })`. -/
def tareasEvaluadas (store : Store) (filtros : Filtros) : List Tarea :=
  ordenarPorFechaInicioDesc (store.tareas.filter (pasaFiltros filtros))

/-- The `include` join restricted to the evaluated municipality:
the task's deliveries with `where: { municipioId }`. -/
def entregasDeTareaParaMunicipio (store : Store) (municipioId : ℕ) (t : Tarea) :
    List Entrega :=
  store.entregas.filter (fun e => e.tareaId == t.id && e.municipioId == municipioId)

/-- State of the `for (const entrega of entregas)` loop over one task's
deliveries. -/
structure ResumenEntregas where
  sumaPuntualidad : ℚ := 0
  sumaCalidad : ℚ := 0
  calificaciones : ℕ := 0
  puntuales : ℕ := 0
  tardias : ℕ := 0
  primeraEntrega : Option ℤ := none
deriving Repr, DecidableEq

/-- The inner delivery loop of `getMunicipalityComprehensiveEvaluation`. -/
def resumirEntregas (tarea : Tarea) : List Entrega → ResumenEntregas → ResumenEntregas
  | [], acc => acc
  | e :: rest, acc =>
    let primera : Option ℤ :=
      match acc.primeraEntrega with
      | none => some e.fechaHoraEntrega
      | some p => if e.fechaHoraEntrega < p then some e.fechaHoraEntrega else some p
    let puntualidad :=
      calcularPuntualidad e.fechaHoraEntrega tarea.fechaInicio tarea.fechaCulminacion
    let acc1 : ResumenEntregas :=
      { acc with
        primeraEntrega := primera
        sumaPuntualidad := acc.sumaPuntualidad + puntualidad
        puntuales :=
          if e.fechaHoraEntrega ≤ tarea.fechaCulminacion then acc.puntuales + 1
          else acc.puntuales
        tardias :=
          if e.fechaHoraEntrega ≤ tarea.fechaCulminacion then acc.tardias
          else acc.tardias + 1 }
    let acc2 : ResumenEntregas :=
      match e.calificacion with
      | some c =>
        { acc1 with
          sumaCalidad := acc1.sumaCalidad + (c : ℚ)
          calificaciones := acc1.calificaciones + 1 }
      | none => acc1
    resumirEntregas tarea rest acc2

/-- State of the outer `for (const tarea of tareas)` loop. -/
structure EvalAcc where
  tareasCompletadas : ℕ := 0
  entregasPuntuales : ℕ := 0
  entregasTardias : ℕ := 0
  totalEntregas : ℕ := 0
  sumaPuntualidad : ℚ := 0
  sumaCalidad : ℚ := 0
  entregasCalificadas : ℕ := 0
  detallesTareas : List TaskEvaluation := []
deriving Repr, DecidableEq

/-- The outer task loop of `getMunicipalityComprehensiveEvaluation`. -/
def evaluarTareas (store : Store) (municipioId : ℕ) : List Tarea → EvalAcc → EvalAcc
  | [], acc => acc
  | tarea :: rest, acc =>
    let entregas := entregasDeTareaParaMunicipio store municipioId tarea
    let cantidadEntregas := entregas.length
    let entregado : Bool := decide (0 < cantidadEntregas)
    let r := resumirEntregas tarea entregas {}
    let puntualidadTarea : ℚ :=
      if 0 < cantidadEntregas then r.sumaPuntualidad / (cantidadEntregas : ℚ)
      else r.sumaPuntualidad
    let calidadTarea : ℚ :=
      if 0 < cantidadEntregas then
        (if 0 < r.calificaciones then r.sumaCalidad / (r.calificaciones : ℚ)
         else r.sumaCalidad)
      else r.sumaCalidad
    let detalle : TaskEvaluation :=
      { tareaId := tarea.id
        tareaNombre := tarea.nombre
        entregado, cantidadEntregas
        puntualidad := round2 puntualidadTarea
        calidad := round2 calidadTarea
        primeraEntrega := r.primeraEntrega
        fechaLimite := tarea.fechaCulminacion }
    evaluarTareas store municipioId rest
      { tareasCompletadas := acc.tareasCompletadas + (if entregado then 1 else 0)
        entregasPuntuales := acc.entregasPuntuales + r.puntuales
        entregasTardias := acc.entregasTardias + r.tardias
        totalEntregas := acc.totalEntregas + (if entregado then cantidadEntregas else 0)
        sumaPuntualidad := acc.sumaPuntualidad + r.sumaPuntualidad
        sumaCalidad := acc.sumaCalidad + r.sumaCalidad
        entregasCalificadas := acc.entregasCalificadas + r.calificaciones
        detallesTareas := acc.detallesTareas ++ [detalle] }

/-- `porcentajeCobertura` before the final 2-decimal rounding. -/
def rawCobertura (totalTareas : ℕ) (a : EvalAcc) : ℚ :=
  if 0 < totalTareas then ((a.tareasCompletadas : ℚ) / (totalTareas : ℚ)) * 100 else 0

/-- `porcentajePuntualidad` before the final 2-decimal rounding. -/
def rawPorcentajePuntualidad (a : EvalAcc) : ℚ :=
  if 0 < a.totalEntregas then ((a.entregasPuntuales : ℚ) / (a.totalEntregas : ℚ)) * 100
  else 0

/-- `promedioPuntualidad` before the final 2-decimal rounding. -/
def rawPromedioPuntualidad (a : EvalAcc) : ℚ :=
  if 0 < a.totalEntregas then a.sumaPuntualidad / (a.totalEntregas : ℚ) else 0

/-- `promedioEntregasPorTarea` before the final 2-decimal rounding. -/
def rawPromedioEntregasPorTarea (a : EvalAcc) : ℚ :=
  if 0 < a.tareasCompletadas then (a.totalEntregas : ℚ) / (a.tareasCompletadas : ℚ)
  else 0

/-- `promedioCalidad` before the final 2-decimal rounding. -/
def rawPromedioCalidad (a : EvalAcc) : ℚ :=
  if 0 < a.entregasCalificadas then a.sumaCalidad / (a.entregasCalificadas : ℚ) else 0

/-- `puntuacionFinal` before the final 2-decimal rounding — computed,
as in the source, from the raw (unrounded) aggregate metrics. -/
def rawPuntuacionFinal (totalTareas : ℕ) (a : EvalAcc) : ℚ :=
  rawCobertura totalTareas a * 0.40 + rawPromedioPuntualidad a * 0.30 +
    rawPromedioCalidad a * 0.20 + min (rawPromedioEntregasPorTarea a * 20) 100 * 0.10

/-- The evaluation record returned for a found municipality: every
percentage field is the 2-decimal rounding of its raw aggregate. -/
def evalRecord (store : Store) (municipioId : ℕ) (filtros : Filtros)
    (municipio : Municipio) : ComprehensiveEvaluation :=
  let tareas := tareasEvaluadas store filtros
  let totalTareas := tareas.length
  let a := evaluarTareas store municipioId tareas {}
  { municipioId
    municipioNombre := municipio.nombre
    totalTareas
    tareasCompletadas := a.tareasCompletadas
    porcentajeCobertura := round2 (rawCobertura totalTareas a)
    entregasPuntuales := a.entregasPuntuales
    entregasTardias := a.entregasTardias
    porcentajePuntualidad := round2 (rawPorcentajePuntualidad a)
    promedioPuntualidad := round2 (rawPromedioPuntualidad a)
    totalEntregas := a.totalEntregas
    promedioEntregasPorTarea := round2 (rawPromedioEntregasPorTarea a)
    entregasCalificadas := a.entregasCalificadas
    promedioCalidad := round2 (rawPromedioCalidad a)
    puntuacionFinal := round2 (rawPuntuacionFinal totalTareas a)
    detallesTareas := a.detallesTareas }

/-- `getMunicipalityComprehensiveEvaluation(municipioId, filtros)`; the
thrown `Error` is modelled as the `Except.error` case. -/
def getMunicipalityComprehensiveEvaluation (store : Store) (municipioId : ℕ)
    (filtros : Filtros) : Except String ComprehensiveEvaluation :=
  match store.municipios.find? (fun m => m.id == municipioId) with
  | none => .error ("Municipio con ID " ++ toString municipioId ++ " no encontrado")
  | some municipio => .ok (evalRecord store municipioId filtros municipio)

/-! ## General lemmas about the rounding and the lifecycle predicate -/

theorem round2_mono {p q : ℚ} (h : p ≤ q) : round2 p ≤ round2 q := by
  unfold round2
  have hr : round (p * 100) ≤ round (q * 100) := by
    rw [round_eq, round_eq]
    exact Int.floor_le_floor (by linarith)
  have : ((round (p * 100) : ℤ) : ℚ) ≤ ((round (q * 100) : ℤ) : ℚ) := by
    exact_mod_cast hr
  linarith

theorem round2_zero : round2 0 = 0 := by
  simp [round2]

theorem debeFinalizar_iff (ahora : ℤ) (t : Tarea) :
    debeFinalizar ahora t = true ↔
      t.estado = EstadoTarea.en_proceso ∧ t.fechaCulminacion ≤ ahora := by
  simp [debeFinalizar]

theorem roundQ_mono {p q : ℚ} (h : p ≤ q) : round p ≤ round q := by
  rw [round_eq, round_eq]
  exact Int.floor_le_floor (by linarith)

/-- The stored name of the task with id `i` (the name the loop pushes,
since the join resolves by `find?` over the same id). -/
def nombreDeTarea (store : Store) (i : ℕ) : String :=
  ((store.tareas.find? (fun t => t.id == i)).map Tarea.nombre).getD ""

/-- Invariant of the `uniqueTaskIds`/`actividadesCompletadas` loop: the
collected ids stay duplicate-free, stay ids of stored tasks, the
collected names are exactly those ids' task names in first-seen order,
and the ids are exactly the resolvable task ids of the processed
deliveries (plus the ids already collected). -/
theorem acumularActividades_spec (store : Store) (es : List Entrega) :
    ∀ (ids : List ℕ) (acts : List String),
      ids.Nodup → acts = ids.map (nombreDeTarea store) →
      (∀ i ∈ ids, i ∈ store.tareas.map Tarea.id) →
      (acumularActividades store es (ids, acts)).1.Nodup ∧
      (acumularActividades store es (ids, acts)).2 =
        (acumularActividades store es (ids, acts)).1.map (nombreDeTarea store) ∧
      (∀ i ∈ (acumularActividades store es (ids, acts)).1,
        i ∈ store.tareas.map Tarea.id) ∧
      (∀ i, i ∈ (acumularActividades store es (ids, acts)).1 ↔
        i ∈ ids ∨ ∃ e ∈ es, ∃ t, tareaDeEntrega store e = some t ∧ t.id = i) := by
  induction es with
  | nil =>
    intro ids acts hnd hacts hmem
    simp only [acumularActividades]
    exact ⟨hnd, hacts, hmem, fun i => by simp⟩
  | cons e rest ih =>
    intro ids acts hnd hacts hmem
    cases hfind : tareaDeEntrega store e with
    | none =>
      simp only [acumularActividades, hfind]
      obtain ⟨h1, h2, h3, h4⟩ := ih ids acts hnd hacts hmem
      refine ⟨h1, h2, h3, fun i => ?_⟩
      rw [h4 i]
      constructor
      · rintro (h | ⟨e', he', t, ht, hi⟩)
        · exact Or.inl h
        · exact Or.inr ⟨e', List.mem_cons_of_mem _ he', t, ht, hi⟩
      · rintro (h | ⟨e', he', t, ht, hi⟩)
        · exact Or.inl h
        · rcases List.mem_cons.mp he' with rfl | he''
          · rw [hfind] at ht
            cases ht
          · exact Or.inr ⟨e', he'', t, ht, hi⟩
    | some t =>
      have hte : t.id = e.tareaId := by
        simpa using List.find?_some hfind
      by_cases hid : t.id ∈ ids
      · simp only [acumularActividades, hfind, if_pos hid]
        obtain ⟨h1, h2, h3, h4⟩ := ih ids acts hnd hacts hmem
        refine ⟨h1, h2, h3, fun i => ?_⟩
        rw [h4 i]
        constructor
        · rintro (h | ⟨e', he', t', ht', hi⟩)
          · exact Or.inl h
          · exact Or.inr ⟨e', List.mem_cons_of_mem _ he', t', ht', hi⟩
        · rintro (h | ⟨e', he', t', ht', hi⟩)
          · exact Or.inl h
          · rcases List.mem_cons.mp he' with rfl | he''
            · rw [hfind] at ht'
              injection ht' with ht''
              subst ht''
              subst hi
              exact Or.inl hid
            · exact Or.inr ⟨e', he'', t', ht', hi⟩
      · simp only [acumularActividades, hfind, if_neg hid]
        have htm : t ∈ store.tareas := List.mem_of_find?_eq_some hfind
        have hnom : nombreDeTarea store t.id = t.nombre := by
          unfold nombreDeTarea
          have hpred : (fun t' : Tarea => t'.id == t.id) =
              (fun t' : Tarea => t'.id == e.tareaId) := by
            funext t'
            rw [hte]
          rw [hpred]
          have hfind' : store.tareas.find? (fun t' => t'.id == e.tareaId) = some t :=
            hfind
          rw [hfind']
          rfl
        have hnd' : (ids ++ [t.id]).Nodup := by
          simp [List.nodup_append, hnd, hid]
        have hacts' : acts ++ [t.nombre] =
            (ids ++ [t.id]).map (nombreDeTarea store) := by
          rw [List.map_append, ← hacts]
          simp [hnom]
        have hmem' : ∀ i ∈ ids ++ [t.id], i ∈ store.tareas.map Tarea.id := by
          intro i hi
          rcases List.mem_append.mp hi with h | h
          · exact hmem i h
          · have hit : i = t.id := by simpa using h
            subst hit
            exact List.mem_map.mpr ⟨t, htm, rfl⟩
        obtain ⟨h1, h2, h3, h4⟩ := ih (ids ++ [t.id]) (acts ++ [t.nombre]) hnd' hacts' hmem'
        refine ⟨h1, h2, h3, fun i => ?_⟩
        rw [h4 i]
        constructor
        · rintro (h | ⟨e', he', t', ht', hi⟩)
          · rcases List.mem_append.mp h with h' | h'
            · exact Or.inl h'
            · have hit : i = t.id := by simpa using h'
              exact Or.inr ⟨e, List.mem_cons_self _ _, t, hfind, hit.symm⟩
          · exact Or.inr ⟨e', List.mem_cons_of_mem _ he', t', ht', hi⟩
        · rintro (h | ⟨e', he', t', ht', hi⟩)
          · exact Or.inl (List.mem_append.mpr (Or.inl h))
          · rcases List.mem_cons.mp he' with rfl | he''
            · rw [hfind] at ht'
              injection ht' with ht''
              subst ht''
              exact Or.inl (List.mem_append.mpr (Or.inr (by simp [hi.symm])))
            · exact Or.inr ⟨e', he'', t', ht', hi⟩

/-- Bounds of the percentage `round(c/t * 10000)/100` for `c ≤ t`. -/
theorem porcentaje_bounds {c t : ℕ} (hct : c ≤ t) (ht : 0 < t) :
    0 ≤ ((round (((c : ℚ) / (t : ℚ)) * 10000) : ℤ) : ℚ) / 100 ∧
    ((round (((c : ℚ) / (t : ℚ)) * 10000) : ℤ) : ℚ) / 100 ≤ 100 := by
  have ht' : (0 : ℚ) < (t : ℚ) := by exact_mod_cast ht
  have h0 : (0 : ℚ) ≤ (c : ℚ) / (t : ℚ) := div_nonneg (by positivity) (le_of_lt ht')
  have h1 : (c : ℚ) / (t : ℚ) ≤ 1 := (div_le_one ht').mpr (by exact_mod_cast hct)
  have hlo : (0 : ℤ) ≤ round (((c : ℚ) / (t : ℚ)) * 10000) := by
    have hr := roundQ_mono (p := (0 : ℚ)) (q := ((c : ℚ) / (t : ℚ)) * 10000)
      (by nlinarith)
    simpa using hr
  have hhi : round (((c : ℚ) / (t : ℚ)) * 10000) ≤ 10000 := by
    have hr := roundQ_mono (p := ((c : ℚ) / (t : ℚ)) * 10000) (q := (10000 : ℚ))
      (by nlinarith)
    simpa using hr
  have hlo' : (0 : ℚ) ≤ ((round (((c : ℚ) / (t : ℚ)) * 10000) : ℤ) : ℚ) := by
    exact_mod_cast hlo
  have hhi' : ((round (((c : ℚ) / (t : ℚ)) * 10000) : ℤ) : ℚ) ≤ 10000 := by
    exact_mod_cast hhi
  constructor <;> [linarith; linarith]

/-! ## Claims -/

/-- **C2.** For every delivery, with `elapsed = submittedAt - startTime`
and `window = deadlineTime - startTime`, the per-delivery punctuality
score is `100` when `elapsed ≤ 0`, `0` when `elapsed ≥ window`
(the earlier case taking precedence, as the case list is ordered), and
`round2(100 - elapsed/window*100)` otherwise. -/
theorem C2_puntualidad_por_entrega (fe fi fl : ℤ) :
    (fe - fi ≤ 0 → calcularPuntualidad fe fi fl = 100) ∧
    (0 < fe - fi → fl - fi ≤ fe - fi → calcularPuntualidad fe fi fl = 0) ∧
    (0 < fe - fi → fe - fi < fl - fi →
      calcularPuntualidad fe fi fl =
        round2 (100 - (((fe - fi : ℤ) : ℚ) / ((fl - fi : ℤ) : ℚ)) * 100)) := by
  refine ⟨fun h1 => ?_, fun h1 h2 => ?_, fun h1 h2 => ?_⟩ <;>
    simp only [calcularPuntualidad]
  · rw [if_pos h1]
  · rw [if_neg (by omega), if_pos (by omega)]
  · rw [if_neg (by omega), if_neg (by omega)]

/-- Witness for C2 at the midpoint-style example (delivery at 333 of a
`[0, 1000]` window). -/
theorem C2_witness :
    calcularPuntualidad 333 0 1000 =
      round2 (100 - (((333 - 0 : ℤ) : ℚ) / ((1000 - 0 : ℤ) : ℚ)) * 100) :=
  (C2_puntualidad_por_entrega 333 0 1000).2.2 (by decide) (by decide)

/-- **C10.** When the task window is empty (`deadlineTime = startTime`),
`calcularPuntualidad` is still total: the zero-guarded branches fire
before the division, so the result is `100` for `submittedAt ≤ startTime`
and `0` otherwise — the dividing branch is never reached. -/
theorem C10_ventana_vacia (fe fi : ℤ) :
    calcularPuntualidad fe fi fi = if fe ≤ fi then 100 else 0 := by
  simp only [calcularPuntualidad]
  by_cases h : fe ≤ fi
  · rw [if_pos (by omega : fe - fi ≤ 0), if_pos h]
  · rw [if_neg (by omega : ¬fe - fi ≤ 0), if_pos (by omega : fe - fi ≥ fi - fi),
      if_neg h]

/-- **C7 (counterexample).** The claim asserts a strictly decreasing
score strictly inside the window; two distinct in-window delivery times
of a wide window share the rounded score `100`, refuting strictness. -/
theorem C7_counterexample :
    (0 : ℤ) < 1 ∧ (1 : ℤ) < 2 ∧ (2 : ℤ) < 1000000 ∧
    ¬ calcularPuntualidad 2 0 1000000 < calcularPuntualidad 1 0 1000000 := by
  have h1 : calcularPuntualidad 1 0 1000000 = 100 := by
    norm_num [calcularPuntualidad, round2, round_eq]
  have h2 : calcularPuntualidad 2 0 1000000 = 100 := by
    norm_num [calcularPuntualidad, round2, round_eq]
  refine ⟨by decide, by decide, by decide, ?_⟩
  rw [h1, h2]
  exact lt_irrefl _

/-- **C7 (amended).** Strictly between start and deadline, the
per-delivery punctuality score is weakly decreasing in `submittedAt`
(the underlying pre-rounding percentage is strictly decreasing, but the
2-decimal rounding can merge neighbouring values). -/
theorem C7_puntualidad_decreciente (fi fl t1 t2 : ℤ)
    (h1 : fi < t1) (h12 : t1 < t2) (h2 : t2 < fl) :
    calcularPuntualidad t2 fi fl ≤ calcularPuntualidad t1 fi fl := by
  simp only [calcularPuntualidad]
  rw [if_neg (by omega : ¬t2 - fi ≤ 0), if_neg (by omega : ¬t2 - fi ≥ fl - fi),
    if_neg (by omega : ¬t1 - fi ≤ 0), if_neg (by omega : ¬t1 - fi ≥ fl - fi)]
  apply round2_mono
  have hw : (0 : ℚ) < ((fl - fi : ℤ) : ℚ) := by
    exact_mod_cast (by omega : (0 : ℤ) < fl - fi)
  have hle : (((t1 - fi : ℤ)) : ℚ) ≤ ((t2 - fi : ℤ) : ℚ) := by
    exact_mod_cast (by omega : t1 - fi ≤ t2 - fi)
  have hdiv : ((t1 - fi : ℤ) : ℚ) / ((fl - fi : ℤ) : ℚ) ≤
      ((t2 - fi : ℤ) : ℚ) / ((fl - fi : ℤ) : ℚ) :=
    (div_le_div_iff_of_pos_right hw).mpr hle
  linarith

/-- Witness for C7 (amended) inside the window `[0, 1000]`. -/
theorem C7_witness :
    calcularPuntualidad 900 0 1000 ≤ calcularPuntualidad 100 0 1000 :=
  C7_puntualidad_decreciente 0 1000 100 900 (by decide) (by decide) (by decide)

/-- **C8.** The bulk update transitions exactly the tasks with status
`en_proceso` and `fechaCulminacion ≤ ahora` to `finalizada`, leaves every
other task unchanged, returns the number of transitioned rows, and an
immediate re-run changes nothing and transitions zero tasks. -/
theorem C8_actualizar_estado (tareas : List Tarea) (ahora : ℤ) :
    List.Forall₂ (fun t t' =>
        (t.estado = EstadoTarea.en_proceso ∧ t.fechaCulminacion ≤ ahora →
          t' = { t with estado := EstadoTarea.finalizada }) ∧
        (¬(t.estado = EstadoTarea.en_proceso ∧ t.fechaCulminacion ≤ ahora) → t' = t))
      tareas (actualizarEstadoTareas tareas ahora).1 ∧
    (actualizarEstadoTareas tareas ahora).2 =
      tareas.countP (fun t =>
        t.estado == EstadoTarea.en_proceso && decide (t.fechaCulminacion ≤ ahora)) ∧
    actualizarEstadoTareas (actualizarEstadoTareas tareas ahora).1 ahora =
      ((actualizarEstadoTareas tareas ahora).1, 0) := by
  refine ⟨?_, rfl, ?_⟩
  · induction tareas with
    | nil => exact List.Forall₂.nil
    | cons t ts ih =>
      simp only [actualizarEstadoTareas, List.map_cons]
      refine List.Forall₂.cons ?_ ih
      by_cases hd : debeFinalizar ahora t
      · rw [if_pos hd]
        have hprop := (debeFinalizar_iff ahora t).mp hd
        exact ⟨fun _ => rfl, fun hc => absurd hprop hc⟩
      · rw [if_neg hd]
        have hprop : ¬(t.estado = EstadoTarea.en_proceso ∧ t.fechaCulminacion ≤ ahora) :=
          fun hc => hd ((debeFinalizar_iff ahora t).mpr hc)
        exact ⟨fun hc => absurd hc hprop, fun _ => rfl⟩
  · have hzero : ∀ t' ∈ (actualizarEstadoTareas tareas ahora).1,
        ¬debeFinalizar ahora t' = true := by
      intro t' ht'
      simp only [actualizarEstadoTareas, List.mem_map] at ht'
      obtain ⟨t, _, rfl⟩ := ht'
      by_cases hd : debeFinalizar ahora t
      · rw [if_pos hd]
        simp [debeFinalizar]
      · rw [if_neg hd]
        exact hd
    show ((actualizarEstadoTareas tareas ahora).1.map _,
        (actualizarEstadoTareas tareas ahora).1.countP _) = _
    have h1 : (actualizarEstadoTareas tareas ahora).1.map
        (fun t => if debeFinalizar ahora t then
          { t with estado := EstadoTarea.finalizada } else t) =
        (actualizarEstadoTareas tareas ahora).1 := by
      conv_rhs => rw [← List.map_id ((actualizarEstadoTareas tareas ahora).1)]
      refine List.map_congr_left ?_
      intro t' ht'
      rw [if_neg (hzero t' ht')]
      rfl
    have h2 : (actualizarEstadoTareas tareas ahora).1.countP (debeFinalizar ahora) = 0 :=
      List.countP_eq_zero.mpr hzero
    rw [h1, h2]

/-- If a task's delivery list (for the unit) is empty, the inner loop
leaves the running summary unchanged in every counting field. -/
theorem evaluarTareas_sin_entregas (store : Store) (municipioId : ℕ) :
    ∀ (ts : List Tarea) (acc : EvalAcc),
      (∀ t ∈ ts, entregasDeTareaParaMunicipio store municipioId t = []) →
      (evaluarTareas store municipioId ts acc).tareasCompletadas = acc.tareasCompletadas ∧
      (evaluarTareas store municipioId ts acc).totalEntregas = acc.totalEntregas ∧
      (evaluarTareas store municipioId ts acc).entregasCalificadas =
        acc.entregasCalificadas := by
  intro ts
  induction ts with
  | nil =>
    intro acc _
    exact ⟨rfl, rfl, rfl⟩
  | cons t rest ih =>
    intro acc h
    have ht : entregasDeTareaParaMunicipio store municipioId t = [] :=
      h t (List.mem_cons_self _ _)
    have hrest := fun t' h' => h t' (List.mem_cons_of_mem _ h')
    simp only [evaluarTareas, ht]
    exact ⟨((ih _ hrest).1).trans rfl, ((ih _ hrest).2.1).trans rfl,
      ((ih _ hrest).2.2).trans rfl⟩

/-- Unrated deliveries leave the `calificaciones` counter unchanged. -/
theorem resumirEntregas_sin_calificar (tarea : Tarea) :
    ∀ (es : List Entrega) (acc : ResumenEntregas),
      (∀ e ∈ es, e.calificacion = none) →
      (resumirEntregas tarea es acc).calificaciones = acc.calificaciones := by
  intro es
  induction es with
  | nil =>
    intro acc _
    rfl
  | cons e rest ih =>
    intro acc h
    have he : e.calificacion = none := h e (List.mem_cons_self _ _)
    simp only [resumirEntregas, he]
    exact (ih _ (fun e' h' => h e' (List.mem_cons_of_mem _ h'))).trans rfl

/-- If no delivery in scope is rated, the unit's rated-delivery counter
stays at its initial value. -/
theorem evaluarTareas_sin_calificar (store : Store) (municipioId : ℕ) :
    ∀ (ts : List Tarea) (acc : EvalAcc),
      (∀ t ∈ ts, ∀ e ∈ entregasDeTareaParaMunicipio store municipioId t,
        e.calificacion = none) →
      (evaluarTareas store municipioId ts acc).entregasCalificadas =
        acc.entregasCalificadas := by
  intro ts
  induction ts with
  | nil =>
    intro acc _
    rfl
  | cons t rest ih =>
    intro acc h
    have hr : (resumirEntregas t (entregasDeTareaParaMunicipio store municipioId t)
        {}).calificaciones = 0 :=
      (resumirEntregas_sin_calificar t _ {} (h t (List.mem_cons_self _ _))).trans rfl
    simp only [evaluarTareas]
    refine (ih _ (fun t' h' => h t' (List.mem_cons_of_mem _ h'))).trans ?_
    show acc.entregasCalificadas +
        (resumirEntregas t (entregasDeTareaParaMunicipio store municipioId t)
          {}).calificaciones = acc.entregasCalificadas
    rw [hr]
    rfl

/-- **C9.** `getMunicipalityComprehensiveEvaluation` fails — with the
error naming the requested id — exactly when no municipality has that id;
for an existing municipality it always succeeds, an empty scope or zero
deliveries yield all-zero metrics, and zero quality ratings yield a zero
quality average. -/
theorem C9_errores_y_degradacion (store : Store) (municipioId : ℕ) (filtros : Filtros) :
    ((∀ m ∈ store.municipios, m.id ≠ municipioId) →
      getMunicipalityComprehensiveEvaluation store municipioId filtros =
        .error ("Municipio con ID " ++ toString municipioId ++ " no encontrado")) ∧
    (∀ m ∈ store.municipios, m.id = municipioId →
      ∃ e, getMunicipalityComprehensiveEvaluation store municipioId filtros = .ok e) ∧
    (∀ e, getMunicipalityComprehensiveEvaluation store municipioId filtros = .ok e →
      ((∀ t ∈ tareasEvaluadas store filtros,
          entregasDeTareaParaMunicipio store municipioId t = []) →
        e.porcentajeCobertura = 0 ∧ e.promedioPuntualidad = 0 ∧
        e.promedioCalidad = 0 ∧ e.promedioEntregasPorTarea = 0 ∧
        e.puntuacionFinal = 0) ∧
      ((∀ t ∈ tareasEvaluadas store filtros,
          ∀ en ∈ entregasDeTareaParaMunicipio store municipioId t,
            en.calificacion = none) →
        e.promedioCalidad = 0)) := by
  refine ⟨?_, ?_, ?_⟩
  · intro hno
    have hnone : store.municipios.find? (fun m => m.id == municipioId) = none :=
      List.find?_eq_none.mpr (fun m hm => by simpa using hno m hm)
    simp only [getMunicipalityComprehensiveEvaluation, hnone]
  · intro m hm hmid
    have hsome : (store.municipios.find? (fun m => m.id == municipioId)).isSome :=
      List.find?_isSome.mpr ⟨m, hm, by simp [hmid]⟩
    obtain ⟨m', hfind⟩ := Option.isSome_iff_exists.mp hsome
    exact ⟨evalRecord store municipioId filtros m',
      by simp only [getMunicipalityComprehensiveEvaluation, hfind]⟩
  · intro e he
    cases hfind : store.municipios.find? (fun m => m.id == municipioId) with
    | none =>
      simp only [getMunicipalityComprehensiveEvaluation, hfind] at he
      simp at he
    | some m =>
      simp only [getMunicipalityComprehensiveEvaluation, hfind, Except.ok.injEq] at he
      subst he
      constructor
      · intro hvac
        obtain ⟨hc, hte, hec⟩ :=
          evaluarTareas_sin_entregas store municipioId (tareasEvaluadas store filtros)
            {} hvac
        have hc0 : (evaluarTareas store municipioId (tareasEvaluadas store filtros)
            {}).tareasCompletadas = 0 := hc.trans rfl
        have hte0 : (evaluarTareas store municipioId (tareasEvaluadas store filtros)
            {}).totalEntregas = 0 := hte.trans rfl
        have hec0 : (evaluarTareas store municipioId (tareasEvaluadas store filtros)
            {}).entregasCalificadas = 0 := hec.trans rfl
        have h1 : rawCobertura (tareasEvaluadas store filtros).length
            (evaluarTareas store municipioId (tareasEvaluadas store filtros) {}) = 0 := by
          simp [rawCobertura, hc0]
        have h2 : rawPromedioPuntualidad
            (evaluarTareas store municipioId (tareasEvaluadas store filtros) {}) = 0 := by
          simp [rawPromedioPuntualidad, hte0]
        have h3 : rawPromedioCalidad
            (evaluarTareas store municipioId (tareasEvaluadas store filtros) {}) = 0 := by
          simp [rawPromedioCalidad, hec0]
        have h4 : rawPromedioEntregasPorTarea
            (evaluarTareas store municipioId (tareasEvaluadas store filtros) {}) = 0 := by
          simp [rawPromedioEntregasPorTarea, hc0]
        refine ⟨?_, ?_, ?_, ?_, ?_⟩
        · show round2 (rawCobertura _ _) = 0
          rw [h1, round2_zero]
        · show round2 (rawPromedioPuntualidad _) = 0
          rw [h2, round2_zero]
        · show round2 (rawPromedioCalidad _) = 0
          rw [h3, round2_zero]
        · show round2 (rawPromedioEntregasPorTarea _) = 0
          rw [h4, round2_zero]
        · show round2 (rawPuntuacionFinal _ _) = 0
          rw [rawPuntuacionFinal, h1, h2, h3, h4]
          norm_num [round2]
      · intro hnc
        have hec0 : (evaluarTareas store municipioId (tareasEvaluadas store filtros)
            {}).entregasCalificadas = 0 :=
          (evaluarTareas_sin_calificar store municipioId (tareasEvaluadas store filtros)
            {} hnc).trans rfl
        show round2 (rawPromedioCalidad _) = 0
        rw [show rawPromedioCalidad (evaluarTareas store municipioId
            (tareasEvaluadas store filtros) {}) = 0 by simp [rawPromedioCalidad, hec0],
          round2_zero]

/-- **C1 (amended).** The returned `puntuacionFinal` is the 2-decimal
rounding of the weighted sum computed from the *unrounded* aggregate
metrics (`coveragePct*0.40 + avgPunctualityScore*0.30 + avgQuality*0.20 +
min(avgQuantity*20, 100)*0.10`), while each returned metric field is the
2-decimal rounding of its raw value — the composite is *not* computed
from the rounded metrics. -/
theorem C1_puntuacion_final (store : Store) (municipioId : ℕ) (filtros : Filtros)
    (e : ComprehensiveEvaluation)
    (h : getMunicipalityComprehensiveEvaluation store municipioId filtros = .ok e) :
    e.puntuacionFinal =
      round2
        (rawCobertura (tareasEvaluadas store filtros).length
            (evaluarTareas store municipioId (tareasEvaluadas store filtros) {}) * 0.40 +
          rawPromedioPuntualidad
            (evaluarTareas store municipioId (tareasEvaluadas store filtros) {}) * 0.30 +
          rawPromedioCalidad
            (evaluarTareas store municipioId (tareasEvaluadas store filtros) {}) * 0.20 +
          min (rawPromedioEntregasPorTarea
              (evaluarTareas store municipioId (tareasEvaluadas store filtros) {}) * 20)
            100 * 0.10) ∧
    e.porcentajeCobertura =
      round2 (rawCobertura (tareasEvaluadas store filtros).length
        (evaluarTareas store municipioId (tareasEvaluadas store filtros) {})) ∧
    e.promedioPuntualidad =
      round2 (rawPromedioPuntualidad
        (evaluarTareas store municipioId (tareasEvaluadas store filtros) {})) ∧
    e.promedioCalidad =
      round2 (rawPromedioCalidad
        (evaluarTareas store municipioId (tareasEvaluadas store filtros) {})) ∧
    e.promedioEntregasPorTarea =
      round2 (rawPromedioEntregasPorTarea
        (evaluarTareas store municipioId (tareasEvaluadas store filtros) {})) := by
  cases hfind : store.municipios.find? (fun m => m.id == municipioId) with
  | none =>
    simp only [getMunicipalityComprehensiveEvaluation, hfind] at h
    simp at h
  | some m =>
    simp only [getMunicipalityComprehensiveEvaluation, hfind, Except.ok.injEq] at h
    subst h
    exact ⟨rfl, rfl, rfl, rfl, rfl⟩

/-- Store with one municipality, three tasks and a single on-time
delivery against the first task, for C1. -/
def storeC1 : Store :=
  ⟨[⟨1, "Alpha"⟩], [⟨1, "Operaciones"⟩],
   [⟨1, "T1", 1, 0, 1000, EstadoTarea.en_proceso⟩,
    ⟨2, "T2", 1, 0, 1000, EstadoTarea.en_proceso⟩,
    ⟨3, "T3", 1, 0, 1000, EstadoTarea.en_proceso⟩],
   [⟨1, 1, 1, 0, none⟩]⟩

/-- The evaluation the engine returns on `storeC1` for unit 1: coverage
`33.33`, punctuality `100`, quality `0`, quantity `1`, composite `45.33`. -/
def resultadoC1 : ComprehensiveEvaluation :=
  ⟨1, "Alpha", 3, 1, 3333/100, 1, 0, 100, 100, 1, 1, 0, 0, 4533/100,
   [⟨1, "T1", true, 1, 100, 0, some 0, 1000⟩,
    ⟨2, "T2", false, 0, 0, 0, none, 1000⟩,
    ⟨3, "T3", false, 0, 0, 0, none, 1000⟩]⟩

theorem C1_eval_concreto :
    getMunicipalityComprehensiveEvaluation storeC1 1 {} = .ok resultadoC1 := by
  simp +decide [getMunicipalityComprehensiveEvaluation, evalRecord, storeC1, resultadoC1,
    tareasEvaluadas, ordenarPorFechaInicioDesc, insertarPorFechaDesc, pasaFiltros,
    entregasDeTareaParaMunicipio, evaluarTareas, resumirEntregas, calcularPuntualidad,
    rawCobertura, rawPorcentajePuntualidad, rawPromedioPuntualidad,
    rawPromedioEntregasPorTarea, rawPromedioCalidad, rawPuntuacionFinal,
    List.filter, List.find?]
  norm_num [round2, round_eq]

/-- **C1 (counterexample).** On `storeC1` the engine returns composite
`45.33`, but the weighted sum of the *returned (rounded)* metrics is
`33.33*0.40 + 100*0.30 + 0*0.20 + min(1*20,100)*0.10 = 45.332` — the
claim's equation fails on the returned record. -/
theorem C1_counterexample :
    getMunicipalityComprehensiveEvaluation storeC1 1 {} = .ok resultadoC1 ∧
    resultadoC1.puntuacionFinal ≠
      resultadoC1.porcentajeCobertura * 0.40 +
        resultadoC1.promedioPuntualidad * 0.30 +
        resultadoC1.promedioCalidad * 0.20 +
        min (resultadoC1.promedioEntregasPorTarea * 20) 100 * 0.10 :=
  ⟨C1_eval_concreto, by norm_num [resultadoC1]⟩

/-- Witness for C1 (amended) on `storeC1`. -/
theorem C1_witness :
    resultadoC1.puntuacionFinal =
      round2
        (rawCobertura (tareasEvaluadas storeC1 {}).length
            (evaluarTareas storeC1 1 (tareasEvaluadas storeC1 {}) {}) * 0.40 +
          rawPromedioPuntualidad
            (evaluarTareas storeC1 1 (tareasEvaluadas storeC1 {}) {}) * 0.30 +
          rawPromedioCalidad
            (evaluarTareas storeC1 1 (tareasEvaluadas storeC1 {}) {}) * 0.20 +
          min (rawPromedioEntregasPorTarea
              (evaluarTareas storeC1 1 (tareasEvaluadas storeC1 {}) {}) * 20)
            100 * 0.10) ∧
    resultadoC1.porcentajeCobertura =
      round2 (rawCobertura (tareasEvaluadas storeC1 {}).length
        (evaluarTareas storeC1 1 (tareasEvaluadas storeC1 {}) {})) ∧
    resultadoC1.promedioPuntualidad =
      round2 (rawPromedioPuntualidad
        (evaluarTareas storeC1 1 (tareasEvaluadas storeC1 {}) {})) ∧
    resultadoC1.promedioCalidad =
      round2 (rawPromedioCalidad
        (evaluarTareas storeC1 1 (tareasEvaluadas storeC1 {}) {})) ∧
    resultadoC1.promedioEntregasPorTarea =
      round2 (rawPromedioEntregasPorTarea
        (evaluarTareas storeC1 1 (tareasEvaluadas storeC1 {}) {})) :=
  C1_puntuacion_final storeC1 1 {} resultadoC1 C1_eval_concreto

/-- Store with one municipality and nothing else, for the C9 witness. -/
def storeC9 : Store := ⟨[⟨1, "Beta"⟩], [], [], []⟩

/-- Witness for C9: an unknown id (2) fails with the error naming it. -/
theorem C9_witness :
    getMunicipalityComprehensiveEvaluation storeC9 2 {} =
      .error ("Municipio con ID " ++ toString 2 ++ " no encontrado") :=
  (C9_errores_y_degradacion storeC9 2 {}).1 (by decide)

/-- Concrete three-row task table for the C8 witness. -/
def tareasC8 : List Tarea :=
  [⟨1, "A", 1, 0, 5, EstadoTarea.en_proceso⟩,
   ⟨2, "B", 1, 0, 100, EstadoTarea.en_proceso⟩,
   ⟨3, "C", 1, 0, 3, EstadoTarea.finalizada⟩]

/-- The ite-level form of the completion percentage: the source's
`Math.round((c/t) * 10000) / 100` agrees with `round2(c/t * 100)`, and
stays within `[0, 100]` whenever `c ≤ t`. -/
theorem porcentaje_formula {c t : ℕ} (hct : c ≤ t) :
    (if 0 < t then ((round (((c : ℚ) / (t : ℚ)) * 10000) : ℤ) : ℚ) / 100 else 0) =
      (if 0 < t then round2 (((c : ℚ) / (t : ℚ)) * 100) else 0) ∧
    0 ≤ (if 0 < t then ((round (((c : ℚ) / (t : ℚ)) * 10000) : ℤ) : ℚ) / 100 else 0) ∧
    (if 0 < t then ((round (((c : ℚ) / (t : ℚ)) * 10000) : ℤ) : ℚ) / 100 else 0) ≤ 100 := by
  by_cases ht : 0 < t
  · rw [if_pos ht, if_pos ht]
    obtain ⟨hb0, hb1⟩ := porcentaje_bounds hct ht
    refine ⟨?_, hb0, hb1⟩
    rw [round2]
    have harg : ((c : ℚ) / (t : ℚ)) * 100 * 100 = ((c : ℚ) / (t : ℚ)) * 10000 := by
      ring
    rw [harg]
  · rw [if_neg ht, if_neg ht]
    norm_num

/-- **C3.** In every coverage-report entry, `porcentajeCompletado` is
`round2(tareasCompletadas / totalTareas * 100)` when `totalTareas > 0`
and `0` otherwise, and it always lies in `[0, 100]`. -/
theorem C3_porcentaje_completado (store : Store) :
    ∀ p ∈ getMunicipalityPerformanceData store,
      p.porcentajeCompletado =
        (if 0 < p.totalTareas then
          round2 (((p.tareasCompletadas : ℚ) / (p.totalTareas : ℚ)) * 100)
         else 0) ∧
      0 ≤ p.porcentajeCompletado ∧ p.porcentajeCompletado ≤ 100 := by
  intro p hp
  simp only [getMunicipalityPerformanceData, List.mem_map] at hp
  obtain ⟨pr, hpr, rfl⟩ := hp
  obtain ⟨hnd, hlen, hmem, hiff⟩ :=
    acumularActividades_spec store (entregasDeMunicipio store pr.2.id) [] []
      (by simp) (by simp) (by simp)
  have hsub : (acumularActividades store (entregasDeMunicipio store pr.2.id) ([], [])).1
      ⊆ store.tareas.map Tarea.id := fun i hi => hmem i hi
  have hle :
      (acumularActividades store (entregasDeMunicipio store pr.2.id) ([], [])).1.length
        ≤ store.tareas.length := by
    simpa using (hnd.subperm hsub).length_le
  dsimp only [municipioPerformance]
  exact porcentaje_formula hle

/-- Store with one municipality and no tasks, for the C3 witness. -/
def storeC3 : Store := ⟨[⟨1, "Solo"⟩], [], [], []⟩

/-- Witness for C3 on `storeC3`, whose single report entry is the one
built for the municipality at position 0. -/
theorem C3_witness :
    (municipioPerformance storeC3 0 ⟨1, "Solo"⟩).porcentajeCompletado =
      (if 0 < (municipioPerformance storeC3 0 ⟨1, "Solo"⟩).totalTareas then
        round2 ((((municipioPerformance storeC3 0 ⟨1, "Solo"⟩).tareasCompletadas : ℚ) /
          ((municipioPerformance storeC3 0 ⟨1, "Solo"⟩).totalTareas : ℚ)) * 100)
       else 0) ∧
    0 ≤ (municipioPerformance storeC3 0 ⟨1, "Solo"⟩).porcentajeCompletado ∧
    (municipioPerformance storeC3 0 ⟨1, "Solo"⟩).porcentajeCompletado ≤ 100 :=
  C3_porcentaje_completado storeC3 (municipioPerformance storeC3 0 ⟨1, "Solo"⟩)
    (List.mem_map_of_mem (fun q => municipioPerformance storeC3 q.1 q.2)
      (show ((0, ⟨1, "Solo"⟩) : ℕ × Municipio) ∈
        (ordenarPorNombre Municipio.nombre storeC3.municipios).enum by decide))

/-- **C4.** In every coverage-report entry (assuming, as the schema's
foreign key guarantees, that each delivery references a stored task),
`tareasCompletadas` is the number of distinct task ids among the unit's
deliveries, the completed-names list has exactly one entry per completed
task, and `tareasCompletadas ≤ totalTareas`. -/
theorem C4_completadas_sin_duplicados (store : Store) :
    ∀ p ∈ getMunicipalityPerformanceData store,
      (∀ e ∈ entregasDeMunicipio store p.municipioId, (tareaDeEntrega store e).isSome) →
      p.tareasCompletadas =
        ((entregasDeMunicipio store p.municipioId).map Entrega.tareaId).dedup.length ∧
      p.actividadesCompletadas =
        (acumularActividades store (entregasDeMunicipio store p.municipioId)
          ([], [])).1.map (nombreDeTarea store) ∧
      p.actividadesCompletadas.length = p.tareasCompletadas ∧
      p.tareasCompletadas ≤ p.totalTareas := by
  intro p hp
  simp only [getMunicipalityPerformanceData, List.mem_map] at hp
  obtain ⟨pr, hpr, rfl⟩ := hp
  obtain ⟨hnd, hlen, hmem, hiff⟩ :=
    acumularActividades_spec store (entregasDeMunicipio store pr.2.id) [] []
      (by simp) (by simp) (by simp)
  have hsub : (acumularActividades store (entregasDeMunicipio store pr.2.id) ([], [])).1
      ⊆ store.tareas.map Tarea.id := fun i hi => hmem i hi
  have hle :
      (acumularActividades store (entregasDeMunicipio store pr.2.id) ([], [])).1.length
        ≤ store.tareas.length := by
    simpa using (hnd.subperm hsub).length_le
  dsimp only [municipioPerformance]
  intro hres
  refine ⟨?_, hlen, by rw [hlen]; exact List.length_map _ _, hle⟩
  have hperm : List.Perm
      (acumularActividades store (entregasDeMunicipio store pr.2.id) ([], [])).1
      ((entregasDeMunicipio store pr.2.id).map Entrega.tareaId).dedup := by
    rw [List.perm_ext_iff_of_nodup hnd (List.nodup_dedup _)]
    intro i
    rw [hiff i, List.mem_dedup, List.mem_map]
    constructor
    · rintro (h | ⟨e, he, t, ht, hi⟩)
      · exact absurd h (List.not_mem_nil i)
      · have hte : t.id = e.tareaId := by simpa using List.find?_some ht
        exact ⟨e, he, by rw [← hte, hi]⟩
    · rintro ⟨e, he, rfl⟩
      have hsome := hres e he
      obtain ⟨t, ht⟩ := Option.isSome_iff_exists.mp hsome
      have hte : t.id = e.tareaId := by simpa using List.find?_some ht
      exact Or.inr ⟨e, he, t, ht, hte⟩
  exact hperm.length_eq

/-- Store with one municipality, two tasks and two duplicate deliveries
against the first task, for the C4 witness. -/
def storeC4 : Store :=
  ⟨[⟨1, "Alpha"⟩], [⟨1, "Operaciones"⟩],
   [⟨1, "T1", 1, 0, 1000, EstadoTarea.en_proceso⟩,
    ⟨2, "T2", 1, 0, 1000, EstadoTarea.en_proceso⟩],
   [⟨1, 1, 1, 500, none⟩, ⟨2, 1, 1, 600, none⟩]⟩

/-- Witness for C4 on `storeC4`: the duplicate deliveries collapse to a
single completion. -/
theorem C4_witness :
    (municipioPerformance storeC4 0 ⟨1, "Alpha"⟩).tareasCompletadas =
      ((entregasDeMunicipio storeC4
          (municipioPerformance storeC4 0 ⟨1, "Alpha"⟩).municipioId).map
        Entrega.tareaId).dedup.length ∧
    (municipioPerformance storeC4 0 ⟨1, "Alpha"⟩).actividadesCompletadas =
      (acumularActividades storeC4 (entregasDeMunicipio storeC4
          (municipioPerformance storeC4 0 ⟨1, "Alpha"⟩).municipioId)
        ([], [])).1.map (nombreDeTarea storeC4) ∧
    (municipioPerformance storeC4 0 ⟨1, "Alpha"⟩).actividadesCompletadas.length =
      (municipioPerformance storeC4 0 ⟨1, "Alpha"⟩).tareasCompletadas ∧
    (municipioPerformance storeC4 0 ⟨1, "Alpha"⟩).tareasCompletadas ≤
      (municipioPerformance storeC4 0 ⟨1, "Alpha"⟩).totalTareas :=
  C4_completadas_sin_duplicados storeC4 (municipioPerformance storeC4 0 ⟨1, "Alpha"⟩)
    (List.mem_map_of_mem (fun q => municipioPerformance storeC4 q.1 q.2)
      (show ((0, ⟨1, "Alpha"⟩) : ℕ × Municipio) ∈
        (ordenarPorNombre Municipio.nombre storeC4.municipios).enum by decide))
    (by decide)

/-- Invariant of the division loop of `getMonthlyPerformance`: the unit
totals stay equal to the sums over the included division rows, and every
included row has a positive task count. -/
theorem datosDivisiones_inv (store : Store) (tareasMes : List Tarea) (municipioId : ℕ) :
    ∀ (divs : List Division) (data : List DivisionPerformanceData) (tA tC : ℕ),
      tA = (data.map DivisionPerformanceData.tareasAsignadas).sum →
      tC = (data.map DivisionPerformanceData.tareasCompletadas).sum →
      (∀ dd ∈ data, 0 < dd.tareasAsignadas) →
      (datosDivisiones store tareasMes municipioId divs (data, tA, tC)).2.1 =
        (((datosDivisiones store tareasMes municipioId divs (data, tA, tC)).1).map
          DivisionPerformanceData.tareasAsignadas).sum ∧
      (datosDivisiones store tareasMes municipioId divs (data, tA, tC)).2.2 =
        (((datosDivisiones store tareasMes municipioId divs (data, tA, tC)).1).map
          DivisionPerformanceData.tareasCompletadas).sum ∧
      (∀ dd ∈ (datosDivisiones store tareasMes municipioId divs (data, tA, tC)).1,
        0 < dd.tareasAsignadas) := by
  intro divs
  induction divs with
  | nil =>
    intro data tA tC hA hC hpos
    simp only [datosDivisiones]
    exact ⟨hA, hC, hpos⟩
  | cons d rest ih =>
    intro data tA tC hA hC hpos
    by_cases hd : 0 < (tareasMes.filter (fun t => t.divisionId == d.id)).length
    · simp only [datosDivisiones, if_pos hd]
      apply ih
      · simp [hA, List.map_append, List.sum_append]
      · simp [hC, List.map_append, List.sum_append]
      · intro dd hdd
        rcases List.mem_append.mp hdd with h | h
        · exact hpos dd h
        · have hddr : dd.tareasAsignadas =
              (tareasMes.filter (fun t => t.divisionId == d.id)).length := by
            have : dd = ⟨d.id, d.nombre,
                (tareasMes.filter (fun t => t.divisionId == d.id)).length,
                (tareasMes.filter (fun t => t.divisionId == d.id)).countP
                  (tareaCompletadaPor store municipioId),
                (round ((((tareasMes.filter (fun t => t.divisionId == d.id)).countP
                    (tareaCompletadaPor store municipioId) : ℚ) /
                  ((tareasMes.filter (fun t => t.divisionId == d.id)).length : ℚ) * 100)
                  * 100) : ℚ) / 100⟩ := by
              simpa using h
            rw [this]
          rw [hddr]
          exact hd
    · simp only [datosDivisiones, if_neg hd]
      exact ih data tA tC hA hC hpos

/-- **C5.** In every unit of every monthly report, the unit totals equal
the sums over the per-division rows, and every included row has
`tareasAsignadas > 0`. -/
theorem C5_sumas_mensuales (store : Store) (year : ℤ) (month : ℕ) :
    ∀ mu ∈ (getMonthlyPerformance store year month).municipios,
      mu.totalTareasAsignadas =
        (mu.divisionData.map DivisionPerformanceData.tareasAsignadas).sum ∧
      mu.totalTareasCompletadas =
        (mu.divisionData.map DivisionPerformanceData.tareasCompletadas).sum ∧
      ∀ dd ∈ mu.divisionData, 0 < dd.tareasAsignadas := by
  intro mu hmu
  simp only [getMonthlyPerformance, List.mem_map] at hmu
  obtain ⟨m, hm, rfl⟩ := hmu
  dsimp only [municipioMensual]
  exact datosDivisiones_inv store (tareasDelMes store year month) m.id
    (ordenarPorNombre Division.nombre store.divisiones) [] 0 0 rfl rfl
    (fun dd hdd => absurd hdd (List.not_mem_nil dd))

/-- Store with one municipality, one division and one January-2024 task,
for the C5 witness. -/
def storeC5 : Store :=
  ⟨[⟨1, "Alpha"⟩], [⟨1, "Operaciones"⟩],
   [⟨1, "T", 1, msDe 2024 1 10 0 0 0 0, msDe 2024 1 20 0 0 0 0,
     EstadoTarea.en_proceso⟩], []⟩

/-- Witness for C5 on `storeC5` for January 2024. -/
theorem C5_witness :
    (municipioMensual storeC5 (tareasDelMes storeC5 2024 1)
        (ordenarPorNombre Division.nombre storeC5.divisiones)
        ⟨1, "Alpha"⟩).totalTareasAsignadas =
      ((municipioMensual storeC5 (tareasDelMes storeC5 2024 1)
          (ordenarPorNombre Division.nombre storeC5.divisiones)
          ⟨1, "Alpha"⟩).divisionData.map
        DivisionPerformanceData.tareasAsignadas).sum ∧
    (municipioMensual storeC5 (tareasDelMes storeC5 2024 1)
        (ordenarPorNombre Division.nombre storeC5.divisiones)
        ⟨1, "Alpha"⟩).totalTareasCompletadas =
      ((municipioMensual storeC5 (tareasDelMes storeC5 2024 1)
          (ordenarPorNombre Division.nombre storeC5.divisiones)
          ⟨1, "Alpha"⟩).divisionData.map
        DivisionPerformanceData.tareasCompletadas).sum ∧
    ∀ dd ∈ (municipioMensual storeC5 (tareasDelMes storeC5 2024 1)
        (ordenarPorNombre Division.nombre storeC5.divisiones)
        ⟨1, "Alpha"⟩).divisionData,
      0 < dd.tareasAsignadas :=
  C5_sumas_mensuales storeC5 2024 1
    (municipioMensual storeC5 (tareasDelMes storeC5 2024 1)
      (ordenarPorNombre Division.nombre storeC5.divisiones) ⟨1, "Alpha"⟩)
    (List.mem_map_of_mem
      (municipioMensual storeC5 (tareasDelMes storeC5 2024 1)
        (ordenarPorNombre Division.nombre storeC5.divisiones))
      (show (⟨1, "Alpha"⟩ : Municipio) ∈
        ordenarPorNombre Municipio.nombre storeC5.municipios by decide))

/-- **C6 (amended).** A task belongs to the month's task universe iff its
`startTime` or its `deadlineTime` falls within
`[first day 00:00:00.000, last day 23:59:59.000]`, or the task spans that
whole window — the code's window closes at 23:59:59 with 0 milliseconds,
not at 23:59:59.999. -/
theorem C6_universo_mensual (store : Store) (year : ℤ) (month : ℕ) (t : Tarea) :
    t ∈ tareasDelMes store year month ↔
      t ∈ store.tareas ∧
      ((inicioMes year month ≤ t.fechaInicio ∧ t.fechaInicio ≤ finMes year month) ∨
       (inicioMes year month ≤ t.fechaCulminacion ∧
         t.fechaCulminacion ≤ finMes year month) ∨
       (t.fechaInicio ≤ inicioMes year month ∧
         finMes year month ≤ t.fechaCulminacion)) := by
  simp only [tareasDelMes, enVentana, List.mem_filter, Bool.or_eq_true,
    Bool.and_eq_true, decide_eq_true_eq]
  tauto

/-- The month-window membership exactly as the specification words it:
the window closes at 23:59:59.999 of the last day of the month. -/
def ventanaMesSpec (year : ℤ) (month : ℕ) (t : Tarea) : Prop :=
  (inicioMes year month ≤ t.fechaInicio ∧
    t.fechaInicio ≤ msDe year month (diasEnMes year month) 23 59 59 999) ∨
  (inicioMes year month ≤ t.fechaCulminacion ∧
    t.fechaCulminacion ≤ msDe year month (diasEnMes year month) 23 59 59 999) ∨
  (t.fechaInicio ≤ inicioMes year month ∧
    msDe year month (diasEnMes year month) 23 59 59 999 ≤ t.fechaCulminacion)

/-- A task starting 500 ms before the end of January 2024. -/
def tareaC6 : Tarea :=
  ⟨1, "Informe de cierre", 1, msDe 2024 1 31 23 59 59 500,
   msDe 2024 2 10 0 0 0 0, EstadoTarea.en_proceso⟩

def storeC6 : Store := ⟨[⟨1, "Alpha"⟩], [⟨1, "Operaciones"⟩], [tareaC6], []⟩

/-- **C6 (counterexample).** The claim's `23:59:59.999` window contains
`tareaC6`, yet the code excludes it from January 2024's task universe. -/
theorem C6_counterexample :
    ventanaMesSpec 2024 1 tareaC6 ∧ tareaC6 ∉ tareasDelMes storeC6 2024 1 := by
  constructor
  · exact Or.inl ⟨by decide, by decide⟩
  · decide

/-- Witness for C8 on a concrete three-task table at time 10. -/
theorem C8_witness :
    List.Forall₂ (fun t t' =>
        (t.estado = EstadoTarea.en_proceso ∧ t.fechaCulminacion ≤ 10 →
          t' = { t with estado := EstadoTarea.finalizada }) ∧
        (¬(t.estado = EstadoTarea.en_proceso ∧ t.fechaCulminacion ≤ 10) → t' = t))
      tareasC8 (actualizarEstadoTareas tareasC8 10).1 ∧
    (actualizarEstadoTareas tareasC8 10).2 =
      tareasC8.countP (fun t =>
        t.estado == EstadoTarea.en_proceso && decide (t.fechaCulminacion ≤ 10)) ∧
    actualizarEstadoTareas (actualizarEstadoTareas tareasC8 10).1 10 =
      ((actualizarEstadoTareas tareasC8 10).1, 0) :=
  C8_actualizar_estado tareasC8 10

end Sala
